import Mathlib

/-!
Shallow embedding of jingo_minify/helpers.py: the asset reference
resolver (js and css template helpers), the stylesheet compiler
(compile_css), and the directory-creation helper (ensure_path_exists).

Filesystem and clock effects are modelled by explicit oracles (Fs) and,
for compile_css, by an explicit state record (CompileState). Python
exceptions are modelled with Except; the KeyError raised by a missing
dict key and the TypeError raised by list.append called with two
arguments are the two exceptions the resolver can raise.
-/

set_option autoImplicit false

namespace JingoMinify

/-- Exceptions the resolver code can raise: KeyError from a missing
dict key, and the TypeError from items.append being called with two
arguments on line 138 of helpers.py. -/
inductive PyError where
  | keyError (key : String)
  | typeErrorAppend
deriving DecidableEq, Repr

/-- The optional generated build module: BUILD_ID_CSS, BUILD_ID_JS,
BUILD_ID_IMG and BUNDLE_HASHES. -/
structure BuildModule where
  buildIdCss : String
  buildIdJs : String
  buildIdImg : String
  bundleHashes : List (String × String)
deriving DecidableEq, Repr

/-- The try/except ImportError at module load: when the build module is
absent all three build ids fall back to the literal dev token and the
hash mapping is empty. -/
def loadBuild : Option BuildModule → BuildModule
  | some b => b
  | none => { buildIdCss := "dev", buildIdJs := "dev", buildIdImg := "dev", bundleHashes := [] }

/-- The Django settings consulted by helpers.py. Options read through
getattr with a default are modelled as Option fields; the getD is
applied at the exact place the source applies the getattr default. -/
structure Settings where
  staticRoot : String
  mediaRoot : String
  staticUrl : String
  mediaUrl : String
  useStatic : Option Bool
  debug : Bool
  minifyBundles : List (String × List (String × List String))
  cssMediaDefault : Option String
  lessPreprocess : Option Bool

/-- Filesystem and clock oracles used in development mode: the Django
static finder, the per-path mtime (already truncated to an integer, as
int(os.path.getmtime(..)) does), and int(time.time()). -/
structure Fs where
  finder : String → Option String
  mtimeAt : String → Nat
  now : Nat

/-- First-match association lookup, the behaviour of a Python dict
membership test followed by indexing. -/
def lookup? {α : Type} (k : String) : List (String × α) → Option α
  | [] => none
  | (k', v) :: rest => if k = k' then some v else lookup? k rest

/-- get_media_root: STATIC_ROOT or MEDIA_ROOT depending on
JINGO_MINIFY_USE_STATIC (getattr default True). -/
def get_media_root (s : Settings) : String :=
  if s.useStatic.getD true then s.staticRoot else s.mediaRoot

/-- get_media_url: STATIC_URL or MEDIA_URL depending on
JINGO_MINIFY_USE_STATIC (getattr default True). -/
def get_media_url (s : Settings) : String :=
  if s.useStatic.getD true then s.staticUrl else s.mediaUrl

/-- os.path.join for a root and a relative path. -/
def osPathJoin (root path : String) : String :=
  root ++ "/" ++ path

/-- get_path: join the media root with the path; under DEBUG with the
static pipeline enabled, prefer what the static finder locates. -/
def get_path (s : Settings) (fs : Fs) (path : String) : String :=
  let fullPath := osPathJoin (get_media_root s) path
  if s.debug && s.useStatic.getD true then
    match fs.finder path with
    | some foundPath => foundPath
    | none => fullPath
  else fullPath

/-- str.startswith, via the character lists of the strings. -/
def strStartsWith (pre s : String) : Bool :=
  pre.data.isPrefixOf s.data

/-- The remote-item test item.startswith(('//', 'http://', 'https://'))
shared by _get_item_path and _get_mtime. -/
def isRemote (item : String) : Bool :=
  strStartsWith "//" item || strStartsWith "http://" item || strStartsWith "https://" item

/-- _get_item_path: a remote item is returned as-is, a local one is
prefixed with the media URL. -/
def get_item_path (s : Settings) (item : String) : String :=
  if isRemote item then item else get_media_url s ++ item

/-- _get_mtime: a remote item gets int(time.time()), a local one gets
int(os.path.getmtime(get_path(item))). -/
def get_mtime (s : Settings) (fs : Fs) (item : String) : Nat :=
  if isRemote item then fs.now else fs.mtimeAt (get_path s fs item)

/-- The js helper, reduced to the ordered list of emitted references
(the items list of the source; _build_html then wraps each in a script
tag). Debug mode maps each manifest item to item?build=mtime; production
mode emits the single js/bundle-min.js reference with the bundle-hash
override when present, else the global js build id. -/
def jsResolve (s : Settings) (bm : Option BuildModule) (fs : Fs) (bundle : String)
    (debug : Bool) : Except PyError (List String) :=
  if debug then
    match lookup? "js" s.minifyBundles with
    | none => .error (.keyError "js")
    | some kindMap =>
      match lookup? bundle kindMap with
      | none => .error (.keyError bundle)
      | some its =>
        .ok (its.map (fun item => item ++ "?build=" ++ toString (get_mtime s fs item)))
  else
    let b := loadBuild bm
    let buildId := (lookup? ("js:" ++ bundle) b.bundleHashes).getD b.buildIdJs
    .ok ["js/" ++ bundle ++ "-min.js?build=" ++ buildId]

/-- The script tag a js item is wrapped in by _build_html. -/
def jsTag (defer async : Bool) (path : String) : String :=
  let attrs := ["src=\"" ++ path ++ "\""]
    ++ (if defer then ["defer"] else [])
    ++ (if async then ["async"] else [])
  "<script " ++ String.intercalate " " attrs ++ "></script>"

/-- The full markup returned by the js helper. -/
def jsHtml (s : Settings) (bm : Option BuildModule) (fs : Fs) (bundle : String)
    (debug defer async : Bool) : Except PyError String :=
  (jsResolve s bm fs bundle debug).map
    (fun its => String.intercalate "\n" (its.map (fun it => jsTag defer async (get_item_path s it))))

/-- str.endswith, via the character lists of the strings. -/
def strEndsWith (s post : String) : Bool :=
  post.data.isSuffixOf s.data

/-- The extension test selecting the compile branch of the css debug
loop: a .less item with LESS_PREPROCESS set (getattr default False), or
a .sass, .scss or .styl item. -/
def needsCompile (s : Settings) (item : String) : Bool :=
  (strEndsWith item ".less" && s.lessPreprocess.getD false)
    || strEndsWith item ".sass" || strEndsWith item ".scss" || strEndsWith item ".styl"

/-- The classification loop of the css helper in debug mode. The first
component records the items handed to compile_css before the loop ends
or dies. On the compile branch the source calls items.append with two
arguments, which raises TypeError after compile_css has run, so the loop
produces an error there; the other two branches append (item, rel)
pairs. -/
def cssClassify (s : Settings) : List String → List String × Except PyError (List (String × String))
  | [] => ([], .ok [])
  | item :: rest =>
    if needsCompile s item then
      ([item], .error .typeErrorAppend)
    else
      let entry : String × String :=
        if strEndsWith item ".less" then (item, "stylesheet/less") else (item, "stylesheet")
      let res := cssClassify s rest
      (res.1, res.2.map (fun l => entry :: l))

/-- The css helper, reduced to (items handed to compile_css, emitted
(href-with-build-token, rel) pairs). Debug mode classifies the manifest
items then stamps each with item?build=mtime; production mode emits the
single css/bundle-min.css reference with the bundle-hash override when
present, else the global css build id. -/
def cssResolve (s : Settings) (bm : Option BuildModule) (fs : Fs) (bundle : String)
    (debug : Bool) : List String × Except PyError (List (String × String)) :=
  if debug then
    match lookup? "css" s.minifyBundles with
    | none => ([], .error (.keyError "css"))
    | some kindMap =>
      match lookup? bundle kindMap with
      | none => ([], .error (.keyError bundle))
      | some its =>
        let c := cssClassify s its
        (c.1, c.2.map (List.map (fun p => (p.1 ++ "?build=" ++ toString (get_mtime s fs p.1), p.2))))
  else
    let b := loadBuild bm
    let buildId := (lookup? ("css:" ++ bundle) b.bundleHashes).getD b.buildIdCss
    ([], .ok [("css/" ++ bundle ++ "-min.css?build=" ++ buildId, "stylesheet")])

/-- The media defaulting at the top of the css helper: if not media,
fall back to getattr(settings, CSS_MEDIA_DEFAULT, default). The none
argument models the helper's default media=False; an explicit string is
falsy exactly when empty. -/
def resolveMedia (s : Settings) (media : Option String) : String :=
  match media with
  | none => s.cssMediaDefault.getD "screen,projection,tv"
  | some m => if m = "" then s.cssMediaDefault.getD "screen,projection,tv" else m

/-- The css helper's emitted links as (rel, media, href) triples, href
resolved through _get_item_path. -/
def cssLinks (s : Settings) (bm : Option BuildModule) (fs : Fs) (bundle : String)
    (media : Option String) (debug : Bool) :
    List String × Except PyError (List (String × String × String)) :=
  let m := resolveMedia s media
  let r := cssResolve s bm fs bundle debug
  (r.1, r.2.map (List.map (fun p => (p.2, m, get_item_path s p.1))))

/-- One rendered link tag of the css helper. -/
def cssLinkTag (rel media href : String) : String :=
  "<link rel=\"" ++ rel ++ "\" media=\"" ++ media ++ "\" href=\"" ++ href ++ "\" />"

/-- The full markup returned by the css helper. -/
def cssHtml (s : Settings) (bm : Option BuildModule) (fs : Fs) (bundle : String)
    (media : Option String) (debug : Bool) : Except PyError String :=
  ((cssLinks s bm fs bundle media debug).2).map
    (fun ls => String.intercalate "\n" (ls.map (fun t => cssLinkTag t.1 t.2.1 t.2.2)))

/-- The filesystem state compile_css acts on, for one source item: the
source file's mtime, the derived artifact's mtime when it exists, the
wall clock, and a counter of compiler processes spawned. -/
structure CompileState where
  srcMtime : Nat
  dstMtime : Option Nat
  now : Nat
  spawned : Nat
deriving DecidableEq, Repr

/-- The staleness test of compile_css: updated_css is the destination
mtime with 0 as the missing-file sentinel, and the branch taken is
not updated_css or updated_src > updated_css. -/
def shouldRegen (srcMtime : Nat) (dstMtime : Option Nat) : Bool :=
  let updatedCss := dstMtime.getD 0
  decide (updatedCss = 0) || decide (updatedCss < srcMtime)

/-- compile_css as a state transformer: when the staleness test fires it
opens the destination for writing (the artifact now exists with the
current clock as its mtime) and spawns one compiler process; otherwise
it is the identity. -/
def compile_css (st : CompileState) : CompileState :=
  if shouldRegen st.srcMtime st.dstMtime then
    { st with dstMtime := some st.now, spawned := st.spawned + 1 }
  else st

/-- The errno of the already-exists OSError swallowed by
ensure_path_exists. -/
def EEXIST : Nat := 17

/-- ensure_path_exists, as a function of the outcome of os.makedirs:
none models a makedirs that returned, some e an OSError with errno e.
EEXIST is swallowed; every other errno re-raises. -/
def ensure_path_exists (makedirsResult : Option Nat) : Except Nat Unit :=
  match makedirsResult with
  | none => .ok ()
  | some e => if e = EEXIST then .ok () else .error e

/-- A concrete settings record for the witnesses: one js bundle with a
local and a remote item, one plain css bundle. -/
def exSettings : Settings :=
  { staticRoot := "/srv/static"
    mediaRoot := "/srv/media"
    staticUrl := "/static/"
    mediaUrl := "/media/"
    useStatic := none
    debug := true
    minifyBundles :=
      [("js", [("common", ["js/a.js", "https://cdn.example/app.js"])]),
       ("css", [("common", ["css/a.css"])])]
    cssMediaDefault := none
    lessPreprocess := none }

/-- A concrete filesystem oracle: the static finder locates nothing,
every file has mtime 7, and the clock reads 42. -/
def exFs : Fs :=
  { finder := fun _ => none
    mtimeAt := fun _ => 7
    now := 42 }

/-- A concrete build module with a js bundle-hash override and no css
override. -/
def exBuild : BuildModule :=
  { buildIdCss := "c0ffee"
    buildIdJs := "deadbeef"
    buildIdImg := "img0"
    bundleHashes := [("js:common", "abc123")] }

/-- Settings whose css manifest holds a single .styl bundle. -/
def exStylSettings : Settings :=
  { exSettings with minifyBundles := [("css", [("main", ["a.styl"])])] }

/-- Settings whose css manifest holds a single .sass bundle. -/
def exSassSettings : Settings :=
  { exSettings with minifyBundles := [("css", [("main", ["a.sass"])])] }

/-- Settings whose css manifest holds a .less item (preprocessing off)
followed by a plain stylesheet. -/
def exLessSettings : Settings :=
  { exSettings with minifyBundles := [("css", [("main", ["a.less", "b.css"])])] }

/-- A compile state whose destination artifact exists with mtime 0, the
epoch: it collides with the never-built sentinel. -/
def epochState : CompileState :=
  { srcMtime := 0, dstMtime := some 0, now := 5, spawned := 0 }

/-- A compile state whose destination artifact is fresh: nonzero mtime,
at least the source's. -/
def freshState : CompileState :=
  { srcMtime := 3, dstMtime := some 5, now := 9, spawned := 0 }

/-- A compile state whose destination artifact has never been built. -/
def staleState : CompileState :=
  { srcMtime := 3, dstMtime := none, now := 10, spawned := 0 }

/-- The staleness test fires exactly when the artifact is absent, has
the sentinel-colliding mtime 0, or is strictly older than the source. -/
theorem shouldRegen_iff (a : Nat) (d : Option Nat) :
    shouldRegen a d = true ↔ d = none ∨ d = some 0 ∨ d.getD 0 < a := by
  cases d with
  | none => simp [shouldRegen]
  | some v => simp [shouldRegen]

/-- C1: in production mode (debug false) the js and css helpers emit
exactly one reference, kind/bundle-min.kind?build=token, whose token is
the BUNDLE_HASHES override for kind:bundle when that key is present,
else the kind's global build id, else the literal dev token when no
build module was loaded. -/
theorem production_single_reference (s : Settings) (bm : Option BuildModule) (fs : Fs)
    (bundle : String) :
    (∀ b, bm = some b →
      jsResolve s bm fs bundle false =
        .ok ["js/" ++ bundle ++ "-min.js?build=" ++
          (lookup? ("js:" ++ bundle) b.bundleHashes).getD b.buildIdJs] ∧
      (cssResolve s bm fs bundle false).2 =
        .ok [("css/" ++ bundle ++ "-min.css?build=" ++
          (lookup? ("css:" ++ bundle) b.bundleHashes).getD b.buildIdCss, "stylesheet")]) ∧
    (bm = none →
      jsResolve s bm fs bundle false = .ok ["js/" ++ bundle ++ "-min.js?build=" ++ "dev"] ∧
      (cssResolve s bm fs bundle false).2 =
        .ok [("css/" ++ bundle ++ "-min.css?build=" ++ "dev", "stylesheet")]) := by
  refine ⟨fun b hb => ?_, fun hb => ?_⟩ <;> subst hb <;> exact ⟨rfl, rfl⟩

/-- Witness for C1: the concrete build module's js override and global
css id are used, and the absent-module fallback token is dev. -/
theorem production_single_reference_witness :
    (jsResolve exSettings (some exBuild) exFs "common" false =
      .ok ["js/" ++ "common" ++ "-min.js?build=" ++
        (lookup? ("js:" ++ "common") exBuild.bundleHashes).getD exBuild.buildIdJs] ∧
     (cssResolve exSettings (some exBuild) exFs "common" false).2 =
      .ok [("css/" ++ "common" ++ "-min.css?build=" ++
        (lookup? ("css:" ++ "common") exBuild.bundleHashes).getD exBuild.buildIdCss, "stylesheet")]) ∧
    (jsResolve exSettings none exFs "common" false =
      .ok ["js/" ++ "common" ++ "-min.js?build=" ++ "dev"] ∧
     (cssResolve exSettings none exFs "common" false).2 =
      .ok [("css/" ++ "common" ++ "-min.css?build=" ++ "dev", "stylesheet")]) :=
  ⟨(production_single_reference exSettings (some exBuild) exFs "common").1 exBuild rfl,
   (production_single_reference exSettings none exFs "common").2 rfl⟩

/-- C2 at its failing input: the css manifest bundle main holds exactly
one item, a.styl, yet resolving it in development mode emits zero
references — the helper raises TypeError (items.append called with two
arguments on the compile branch) instead of one reference per manifest
item. The js helper, by contrast, does emit one reference per item in
manifest order. -/
theorem css_debug_drops_references :
    lookup? "main" ((lookup? "css" exStylSettings.minifyBundles).getD []) = some ["a.styl"] ∧
    (cssResolve exStylSettings none exFs "main" true).2 = .error .typeErrorAppend ∧
    jsResolve exSettings none exFs "common" true =
      .ok ["js/a.js?build=7", "https://cdn.example/app.js?build=42"] :=
  ⟨rfl, rfl, rfl⟩

/-- C3: a remote item's development token is the wall clock and its URL
is the item itself, unprefixed; a local item's token is the mtime of its
resolved filesystem path and its URL is the media URL prefix followed by
the item. -/
theorem dev_token_and_url (s : Settings) (fs : Fs) (item : String) :
    (isRemote item = true →
      get_mtime s fs item = fs.now ∧ get_item_path s item = item) ∧
    (isRemote item = false →
      get_mtime s fs item = fs.mtimeAt (get_path s fs item) ∧
      get_item_path s item = get_media_url s ++ item) := by
  constructor <;> intro h <;> simp [get_mtime, get_item_path, h]

/-- Witness for C3 at a concrete remote and a concrete local item. -/
theorem dev_token_and_url_witness :
    (get_mtime exSettings exFs "https://cdn.example/app.js" = exFs.now ∧
     get_item_path exSettings "https://cdn.example/app.js" = "https://cdn.example/app.js") ∧
    (get_mtime exSettings exFs "css/a.css" = exFs.mtimeAt (get_path exSettings exFs "css/a.css") ∧
     get_item_path exSettings "css/a.css" = get_media_url exSettings ++ "css/a.css") :=
  ⟨(dev_token_and_url exSettings exFs "https://cdn.example/app.js").1 rfl,
   (dev_token_and_url exSettings exFs "css/a.css").2 rfl⟩

/-- C6: in development mode a bundle name absent from the manifest for
its kind makes both helpers fail with the missing-bundle KeyError; no
references are emitted and the css helper hands nothing to
compile_css. -/
theorem missing_bundle_raises (s : Settings) (bm : Option BuildModule) (fs : Fs)
    (bundle : String) :
    (∀ kindMap, lookup? "js" s.minifyBundles = some kindMap →
      lookup? bundle kindMap = none →
      jsResolve s bm fs bundle true = .error (.keyError bundle)) ∧
    (∀ kindMap, lookup? "css" s.minifyBundles = some kindMap →
      lookup? bundle kindMap = none →
      cssResolve s bm fs bundle true = ([], .error (.keyError bundle))) := by
  constructor <;> intro kindMap h1 h2 <;> simp [jsResolve, cssResolve, h1, h2]

/-- Witness for C6: the bundle nope is missing from both kinds of the
concrete manifest. -/
theorem missing_bundle_raises_witness :
    jsResolve exSettings none exFs "nope" true = .error (.keyError "nope") ∧
    cssResolve exSettings none exFs "nope" true = ([], .error (.keyError "nope")) :=
  ⟨(missing_bundle_raises exSettings none exFs "nope").1
      [("common", ["js/a.js", "https://cdn.example/app.js"])] rfl rfl,
   (missing_bundle_raises exSettings none exFs "nope").2
      [("common", ["css/a.css"])] rfl rfl⟩

/-- C7: ensure_path_exists returns normally when makedirs succeeds and
when it raises the already-exists error, and re-raises any other
errno. -/
theorem ensure_path_exists_spec :
    ensure_path_exists none = .ok () ∧
    ensure_path_exists (some EEXIST) = .ok () ∧
    ∀ e, e ≠ EEXIST → ensure_path_exists (some e) = .error e := by
  refine ⟨rfl, rfl, fun e he => ?_⟩
  simp [ensure_path_exists, he]

/-- Witness for C7: the permission-denied errno 13 propagates. -/
theorem ensure_path_exists_spec_witness :
    ensure_path_exists (some 13) = .error 13 :=
  ensure_path_exists_spec.2.2 13 (by decide)

/-- C4 counterexample: a destination artifact that exists with mtime 0
(the epoch) has an mtime greater than or equal to the source's, yet
compile_css spawns a compiler process — not updated_css cannot tell the
epoch from the never-built sentinel. -/
theorem compile_css_epoch_regenerates :
    epochState.dstMtime = some 0 ∧
    epochState.srcMtime ≤ epochState.dstMtime.getD 0 ∧
    (compile_css epochState).spawned = epochState.spawned + 1 ∧
    compile_css epochState ≠ epochState := by decide

/-- C4 amended: compile_css regenerates exactly when the destination is
missing, or exists with mtime 0 (indistinguishable from the never-built
sentinel), or is strictly older than the source; when the destination
exists with a nonzero mtime at least the source's, the call spawns no
compiler and changes nothing. -/
theorem compile_css_staleness (st : CompileState) :
    ((compile_css st).spawned = st.spawned + 1 ↔
      st.dstMtime = none ∨ st.dstMtime = some 0 ∨ st.dstMtime.getD 0 < st.srcMtime) ∧
    (∀ d, st.dstMtime = some d → 0 < d → st.srcMtime ≤ d → compile_css st = st) := by
  constructor
  · constructor
    · intro hsp
      by_contra hc
      have hf : shouldRegen st.srcMtime st.dstMtime = false := by
        cases hb : shouldRegen st.srcMtime st.dstMtime
        · rfl
        · exact absurd ((shouldRegen_iff _ _).mp hb) hc
      simp [compile_css, hf] at hsp
    · intro hc
      simp [compile_css, (shouldRegen_iff _ _).mpr hc]
  · intro d hd h0 hs
    have hf : shouldRegen st.srcMtime st.dstMtime = false := by
      simp [shouldRegen, hd]
      omega
    simp [compile_css, hf]

/-- Witness for C4's amended theorem: a fresh artifact (mtime 5, source
mtime 3) leaves compile_css a no-op. -/
theorem compile_css_staleness_witness :
    compile_css freshState = freshState :=
  (compile_css_staleness freshState).2 5 rfl (by decide) (by decide)

/-- C5: under a sane clock (positive, not behind the source's mtime) a
second compile_css call right after a first, with the source
unmodified, is a no-op that leaves the whole state — artifact and spawn
counter included — unchanged; when the first call found the artifact
stale, the two calls together spawn exactly one compiler process. -/
theorem compile_css_idempotent (st : CompileState) (t : Nat)
    (hnow : 0 < st.now) (hsrc : st.srcMtime ≤ st.now) :
    compile_css { compile_css st with now := t } = { compile_css st with now := t } ∧
    (shouldRegen st.srcMtime st.dstMtime = true →
      ({ compile_css st with now := t } : CompileState).spawned = st.spawned + 1) := by
  cases hb : shouldRegen st.srcMtime st.dstMtime with
  | true =>
    have h1 : compile_css st =
        { st with dstMtime := some st.now, spawned := st.spawned + 1 } := by
      simp [compile_css, hb]
    rw [h1]
    have h2 : shouldRegen st.srcMtime (some st.now) = false := by
      simp [shouldRegen]
      omega
    exact ⟨by simp [compile_css, h2], fun _ => rfl⟩
  | false =>
    have h1 : compile_css st = st := by simp [compile_css, hb]
    rw [h1]
    exact ⟨by simp [compile_css, hb], fun hc => absurd hc (by decide)⟩

/-- Witness for C5: a never-built artifact is built by the first call at
time 10 and the second call at time 20 changes nothing. -/
theorem compile_css_idempotent_witness :
    compile_css { compile_css staleState with now := 20 } =
      { compile_css staleState with now := 20 } ∧
    (shouldRegen staleState.srcMtime staleState.dstMtime = true →
      ({ compile_css staleState with now := 20 } : CompileState).spawned =
        staleState.spawned + 1) :=
  compile_css_idempotent staleState 20 (by decide) (by decide)

/-- C8 at its failing input: a .sass item is handed to the compiler but
the helper then raises TypeError instead of emitting a reference to the
derived a.sass.css artifact; the two non-compiling branches do behave as
classified — a .less item with preprocessing disabled is emitted as-is
with rel stylesheet/less, and any other extension as a plain
stylesheet. -/
theorem css_debug_sass_no_compiled_reference :
    (cssResolve exSassSettings none exFs "main" true).1 = ["a.sass"] ∧
    (cssResolve exSassSettings none exFs "main" true).2 = .error .typeErrorAppend ∧
    (cssResolve exLessSettings none exFs "main" true).2 =
      .ok [("a.less?build=7", "stylesheet/less"), ("b.css?build=7", "stylesheet")] :=
  ⟨rfl, rfl, rfl⟩

/-- C9: production-mode resolution is deterministic — it reads neither
the settings-resolved filesystem nor the clock and hands nothing to
compile_css, so two invocations with the same bundle and build data
agree whatever the filesystem looks like. -/
theorem production_deterministic (s₁ s₂ : Settings) (fs₁ fs₂ : Fs)
    (bm : Option BuildModule) (bundle : String) :
    jsResolve s₁ bm fs₁ bundle false = jsResolve s₂ bm fs₂ bundle false ∧
    cssResolve s₁ bm fs₁ bundle false = cssResolve s₂ bm fs₂ bundle false ∧
    (cssResolve s₁ bm fs₁ bundle false).1 = [] :=
  ⟨rfl, rfl, rfl⟩

/-- C10: the css helper replaces a falsy media argument — the omitted
default as well as an explicitly passed empty string — with
CSS_MEDIA_DEFAULT or its screen,projection,tv fallback; every emitted
link carries exactly the resolved media string, so when the configured
default is nonempty no emitted link has an empty media attribute. -/
theorem css_media_defaulting (s : Settings) :
    resolveMedia s none = s.cssMediaDefault.getD "screen,projection,tv" ∧
    resolveMedia s (some "") = s.cssMediaDefault.getD "screen,projection,tv" ∧
    (∀ bm fs bundle media debug links,
      (cssLinks s bm fs bundle media debug).2 = .ok links →
      ∀ t ∈ links, t.2.1 = resolveMedia s media) ∧
    (s.cssMediaDefault.getD "screen,projection,tv" ≠ "" →
      ∀ media, resolveMedia s media ≠ "") := by
  refine ⟨rfl, rfl, ?_, ?_⟩
  · intro bm fs bundle media debug links h t ht
    cases hr : (cssResolve s bm fs bundle debug).2 with
    | error e => simp [cssLinks, hr, Except.map] at h
    | ok l =>
      simp [cssLinks, hr, Except.map] at h
      subst h
      obtain ⟨p, _, rfl⟩ := List.mem_map.mp ht
      rfl
  · intro hne media
    cases media with
    | none => exact hne
    | some m =>
      by_cases hm : m = ""
      · simp only [resolveMedia, if_pos hm]
        exact hne
      · simp only [resolveMedia, if_neg hm]
        exact hm

/-- Witness for C10: an explicit empty media string resolves to the
fallback default, which is carried by the emitted link, and a nonempty
media string never resolves to the empty string. -/
theorem css_media_defaulting_witness :
    ("screen,projection,tv" : String) = resolveMedia exSettings (some "") ∧
    resolveMedia exSettings (some "print") ≠ "" :=
  ⟨(css_media_defaulting exSettings).2.2.1 none exFs "common" (some "") true
      [("stylesheet", "screen,projection,tv", "/static/css/a.css?build=7")] rfl
      ("stylesheet", "screen,projection,tv", "/static/css/a.css?build=7") (by simp),
   (css_media_defaulting exSettings).2.2.2 (by decide) (some "print")⟩

end JingoMinify
